import Mathlib

/-!
# Execution repository: transactional update and claim-and-dispatch

A shallow embedding of `pkg/repositories/gormimpl/execution_repo.go`.

The database is a value of type `Store` (the `executions` table in physical
order and the append-only event log).  Every repository method becomes a pure
function from the store before the call to the returned Go values and the
store after the call.  What the environment decides is passed in explicitly:

* `Faults` says which statement of the call, if any, the database answers
  with a storage error (a lost connection, a statement it rejects);
* `now` is the time of the call (seconds), used by `NOW()` in the claim
  statement and by the ORM when it stamps `updated_at`;
* `locked` is the set of row ids currently locked by other in-flight
  transactions, which `FOR UPDATE SKIP LOCKED` passes over.

ORM conventions used by the source and modelled here:

* `Model(&x).Updates(x)` is update-by-example: it addresses the row whose
  primary id is `x.ID` (every row when `x.ID` is the zero value), writes only
  the non-zero fields of `x`, and stamps `updated_at`;
* `Where(&x)` filters on the non-zero fields of `x`; `First` orders by id;
* a statement that raises an error changes nothing;
* `First` into a struct that finds no row sets `Error` to
  `gorm.ErrRecordNotFound`, so the `tx.Error` / `result.Error` guard after a
  lookup fires before the guard on `RecordNotFound()` / `RowsAffected`;
* the claim statement is taken as it is written: its placeholders stand
  inside single quotes, so its arguments are bound to nothing.
-/

namespace gormimpl

/-! ## Errors -/

/-- Raw error raised by the storage layer. -/
structure StorageError where
  msg : String
  deriving DecidableEq, Repr

/-- The ORM error `gorm.ErrRecordNotFound`. -/
def ErrRecordNotFound : StorageError := { msg := "record not found" }

/-- Modelled from the spec: the codes of the domain error taxonomy (the
`errors` package is not part of the sources). -/
inductive Code
  | NotFound
  | AlreadyExists
  | InvalidArgument
  | Internal
  | Transient
  deriving DecidableEq, Repr

/-- Modelled from the spec: `errors.FlyteAdminError`, a code of the taxonomy
with a message (the `errors` package is not part of the sources). -/
structure FlyteAdminError where
  code : Code
  message : String
  deriving DecidableEq, Repr

/-- Go `error` values returned by the repository, by dynamic type. -/
inductive Error
  /-- a raw storage error, handed on as it was raised -/
  | storage (e : StorageError)
  /-- a `FlyteAdminError` -/
  | admin (e : FlyteAdminError)
  /-- the value of `fmt.Errorf(msg)` -/
  | errorf (msg : String)
  deriving DecidableEq, Repr

/-- The `errors.ErrorTransformer` interface: its one method. -/
structure ErrorTransformer where
  ToFlyteAdminError : StorageError → FlyteAdminError

/-- Modelled from the spec: `errors.GetMissingEntityError`, a `NotFound` that
keeps the entity type and key (the `errors` package is not part of the
sources). -/
def GetMissingEntityError (entity project domain name : String) : FlyteAdminError :=
  { code := Code.NotFound
    message := "missing entity of type " ++ entity ++ " with identifier " ++
      project ++ "/" ++ domain ++ "/" ++ name }

/-! ## Data model -/

/-- Modelled from the spec: `models.Execution` (the `models` package is not
part of the sources): surrogate id, logical key, phase, owning cluster,
last-update time in seconds, and the two uninterpreted payload blobs. -/
structure Execution where
  ID : Nat
  Project : String
  Domain : String
  Name : String
  Phase : String
  Cluster : String
  UpdatedAt : Int
  Spec : List Nat
  Closure : List Nat
  deriving DecidableEq, Repr

/-- The Go zero value `models.Execution{}`. -/
def Execution.zero : Execution :=
  { ID := 0, Project := "", Domain := "", Name := "", Phase := "", Cluster := "",
    UpdatedAt := 0, Spec := [], Closure := [] }

/-- Modelled from the spec: `models.ExecutionEvent` (the `models` package is
not part of the sources). -/
structure ExecutionEvent where
  ExecutionID : Nat
  Phase : String
  OccurredAt : Int
  Metadata : List Nat
  deriving DecidableEq, Repr

/-- The part of `admin.AgentInformation` the repository reads. -/
structure AgentInformation where
  ClusterName : String
  deriving DecidableEq, Repr

/-- The part of `interfaces.GetResourceInput` that `Get` reads. -/
structure GetResourceInput where
  Project : String
  Domain : String
  Name : String
  deriving DecidableEq, Repr

/-- `core.WorkflowExecution_UNDEFINED.String()`. -/
def WorkflowExecution_UNDEFINED : String := "UNDEFINED"

/-- `core.WorkflowExecution_QUEUED.String()`. -/
def WorkflowExecution_QUEUED : String := "QUEUED"

/-- Names of the values of `core.WorkflowExecution_Phase`, the texts a stored
phase holds. -/
def phaseNames : List String :=
  ["UNDEFINED", "QUEUED", "RUNNING", "SUCCEEDING", "SUCCEEDED", "FAILING", "FAILED",
    "ABORTED", "TIMED_OUT", "ABORTING"]

/-- Committed database state. -/
structure Store where
  executions : List Execution
  events : List ExecutionEvent
  deriving DecidableEq, Repr

/-- Which statement of a call raises a storage error, if any. -/
structure Faults where
  create : Option StorageError
  query : Option StorageError
  updates : Option StorageError
  commit : Option StorageError
  deriving DecidableEq, Repr

/-- No statement fails. -/
def noFaults : Faults :=
  { create := none, query := none, updates := none, commit := none }

/-- The receiver: the repository's error transformer (the database handle is
the `Store` threaded through each call; metrics are not modelled). -/
structure ExecutionRepo where
  errorTransformer : ErrorTransformer

/-! ## ORM layer -/

/-- The row after an update-by-example with `ex`: non-zero fields of `ex`
overwrite the row, zero-valued ones are left out of the statement, and
`updated_at` is stamped. -/
def updateAttrs (now : Int) (ex row : Execution) : Execution :=
  { ID := if ex.ID = 0 then row.ID else ex.ID
    Project := if ex.Project = "" then row.Project else ex.Project
    Domain := if ex.Domain = "" then row.Domain else ex.Domain
    Name := if ex.Name = "" then row.Name else ex.Name
    Phase := if ex.Phase = "" then row.Phase else ex.Phase
    Cluster := if ex.Cluster = "" then row.Cluster else ex.Cluster
    UpdatedAt := now
    Spec := if ex.Spec = [] then row.Spec else ex.Spec
    Closure := if ex.Closure = [] then row.Closure else ex.Closure }

/-- The table after `Model(&ex).Updates(ex)`: the rows whose id is `ex.ID`
(every row when `ex.ID` is zero) are updated by example. -/
def Updates (now : Int) (ex : Execution) (rows : List Execution) : List Execution :=
  rows.map fun row => if ex.ID = 0 ∨ row.ID = ex.ID then updateAttrs now ex row else row

/-- A write buffered in an open transaction. -/
inductive Write
  | createEvent (ev : ExecutionEvent)
  | updates (now : Int) (ex : Execution)
  deriving DecidableEq, Repr

/-- Effect of one write on a store. -/
def Write.apply : Write → Store → Store
  | Write.createEvent ev, s => { s with events := s.events ++ [ev] }
  | Write.updates now ex, s => { s with executions := Updates now ex s.executions }

/-- An open transaction: the writes it has made, invisible outside it until
commit. -/
structure Tx where
  pending : List Write
  deriving DecidableEq, Repr

/-- Result of `db.Begin()`. -/
def Begin : Tx := { pending := [] }

/-- What the transaction sees: the committed store with its own writes. -/
def Tx.view (tx : Tx) (s : Store) : Store :=
  tx.pending.foldl (fun acc w => w.apply acc) s

/-- Result of a successful `tx.Commit()`: the writes reach the committed store. -/
def Tx.Commit (tx : Tx) (s : Store) : Store := tx.view s

/-- Statement `tx.Create(&event)`: returns the transaction and `.Error`. -/
def Tx.Create (tx : Tx) (fault : Option StorageError) (ev : ExecutionEvent) :
    Tx × Option StorageError :=
  match fault with
  | some e => (tx, some e)
  | none => ({ pending := tx.pending ++ [Write.createEvent ev] }, none)

/-- Statement `tx.Model(&ex).Updates(&ex)`: returns the transaction, the model
value (whose `UpdatedAt` the ORM stamps too) and `.Error`. -/
def Tx.Updates (tx : Tx) (fault : Option StorageError) (now : Int) (ex : Execution) :
    Tx × Execution × Option StorageError :=
  match fault with
  | some e => (tx, ex, some e)
  | none =>
    ({ pending := tx.pending ++ [Write.updates now ex] }, { ex with UpdatedAt := now }, none)

/-- Statement `r.db.Model(&ex).Updates(ex)` on the plain handle: it runs in no
transaction, so on success it reaches the committed store at once. -/
def dbUpdates (fault : Option StorageError) (now : Int) (ex : Execution) (s : Store) :
    Store × Option StorageError :=
  match fault with
  | some e => (s, some e)
  | none => ((Write.updates now ex).apply s, none)

/-- The fields of a `*gorm.DB` result that the source inspects, with the row
scanned into the destination, if any. -/
structure Result where
  Error : Option StorageError
  RowsAffected : Nat
  row : Option Execution
  deriving DecidableEq, Repr

/-- Seconds named by the text of an interval literal `<digits> seconds`: `none`
when the text before the blank is not a decimal number. -/
def intervalSeconds (text : String) : Option Int :=
  let digits := text.toList.takeWhile fun c => c != ' '
  if digits = [] then none
  else
    digits.foldl
      (fun acc c =>
        acc.bind fun n => if c.isDigit then some (10 * n + ((c.toNat : Int) - 48)) else none)
      (some 0)

/-- The `WHERE` clause of the claim statement as it is written:
`phase = '?' or ( phase = '?' and updated_at < NOW() - interval '? seconds')`.
The three placeholders stand inside single quotes, so the arguments
`UNDEFINED`, `QUEUED` and `60` passed with the statement are bound to nothing:
`phase` is compared with the text `?`, and the interval is read from the text
`? seconds`. -/
def claimWhere (now : Int) (row : Execution) : Bool :=
  row.Phase == "?" ||
    (row.Phase == "?" &&
      match intervalSeconds "? seconds" with
      | some d => decide (row.UpdatedAt < now - d)
      | none => false)

/-- The row `First` returns: the one with the least id. -/
def firstByID (rows : List Execution) : Option Execution :=
  rows.foldl
    (fun best row =>
      match best with
      | none => some row
      | some b => if row.ID < b.ID then some row else some b)
    none

/-- The row the claim statement yields over a table when the database runs it:
among the rows that satisfy its `WHERE` clause and are not locked by another
transaction (`FOR UPDATE SKIP LOCKED`), the first in the order by id that
`First` appends, if there is one. -/
def claimQuery (now : Int) (locked : List Nat) (rows : List Execution) : Option Execution :=
  firstByID (rows.filter fun row => claimWhere now row && !locked.contains row.ID)

/-- Statement `tx.Raw(<claim statement>, args...).First(&exec)`.  The values
`args` are handed over with the statement; it has no placeholder outside
quotes, so none of them takes part in the selection.  `fault` is the
database's answer when it rejects the statement as assembled (`LIMIT 1` is
glued to `FOR UPDATE`, and `First` appends its `ORDER BY` and `LIMIT` after the
locking clause); a statement that runs and scans no row ends in
`ErrRecordNotFound`. -/
def Tx.RawFirst (tx : Tx) (fault : Option StorageError) (now : Int) (locked : List Nat)
    (_args : List String) (s : Store) : Result :=
  match fault with
  | some e => { Error := some e, RowsAffected := 0, row := none }
  | none =>
    match claimQuery now locked (tx.view s).executions with
    | some row => { Error := none, RowsAffected := 1, row := some row }
    | none => { Error := some ErrRecordNotFound, RowsAffected := 0, row := none }

/-- Method `RecordNotFound()` of a result: whether its error is
`gorm.ErrRecordNotFound`. -/
def Result.RecordNotFound (res : Result) : Bool :=
  res.Error == some ErrRecordNotFound

/-- `db.Transaction(fc)`: run `fc` in a fresh transaction; roll back when it
returns an error or when the commit fails, commit otherwise.  `β` is the state
the closure captures. -/
def Transaction {β : Type} (commitFault : Option StorageError) (s : Store)
    (fc : Tx → β × Tx × Option Error) : β × Option Error × Store :=
  match fc Begin with
  | (b, _, some err) => (b, some err, s)
  | (b, tx, none) =>
    match commitFault with
    | some e => (b, some (Error.storage e), s)
    | none => (b, none, tx.Commit s)

/-- The filter of `Where(&models.Execution{ExecutionKey: ...})`: equality on
the non-zero key fields. -/
def whereKey (input : GetResourceInput) (row : Execution) : Bool :=
  (input.Project == "" || row.Project == input.Project) &&
  (input.Domain == "" || row.Domain == input.Domain) &&
  (input.Name == "" || row.Name == input.Name)

/-- Statement `r.db.Where(&models.Execution{ExecutionKey: ...}).First(&execution)`. -/
def dbWhereFirst (fault : Option StorageError) (input : GetResourceInput) (s : Store) :
    Result :=
  match fault with
  | some e => { Error := some e, RowsAffected := 0, row := none }
  | none =>
    match firstByID (s.executions.filter (whereKey input)) with
    | some row => { Error := none, RowsAffected := 1, row := some row }
    | none => { Error := some ErrRecordNotFound, RowsAffected := 0, row := none }

/-! ## Repository methods -/

/-- `ExecutionRepo.Get`. -/
def Get (r : ExecutionRepo) (f : Faults) (input : GetResourceInput) (s : Store) :
    Execution × Option Error :=
  let tx := dbWhereFirst f.query input s
  let execution := tx.row.getD Execution.zero
  match tx.Error with
  | some e => (Execution.zero, some (Error.admin (r.errorTransformer.ToFlyteAdminError e)))
  | none =>
    if tx.RecordNotFound then
      (Execution.zero,
        some (Error.admin
          (GetMissingEntityError "execution" input.Project input.Domain input.Name)))
    else (execution, none)

/-- Statements a call issues, in order. -/
inductive Stmt
  | begin
  | createEvent
  | updatesExecution
  | commit
  | rollback
  deriving DecidableEq, Repr

/-- What `Update` leaves behind: the returned error, the committed store and
the statements it issued. -/
structure UpdateOutcome where
  err : Option Error
  store : Store
  issued : List Stmt
  deriving DecidableEq, Repr

/-- `ExecutionRepo.Update`.  The event is created on `tx`; the execution is
updated on `r.db`, outside the transaction. -/
def Update (r : ExecutionRepo) (f : Faults) (now : Int) (event : ExecutionEvent)
    (execution : Execution) (s : Store) : UpdateOutcome :=
  let tx := Begin
  match tx.Create f.create event with
  | (_, some err) =>
    { err := some (Error.admin (r.errorTransformer.ToFlyteAdminError err))
      store := s
      issued := [Stmt.begin, Stmt.createEvent, Stmt.rollback] }
  | (tx, none) =>
    match dbUpdates f.updates now execution s with
    | (_, some err) =>
      { err := some (Error.admin (r.errorTransformer.ToFlyteAdminError err))
        store := s
        issued := [Stmt.begin, Stmt.createEvent, Stmt.updatesExecution, Stmt.rollback] }
    | (s1, none) =>
      match f.commit with
      | some err =>
        { err := some (Error.admin (r.errorTransformer.ToFlyteAdminError err))
          store := s1
          issued := [Stmt.begin, Stmt.createEvent, Stmt.updatesExecution, Stmt.commit] }
      | none =>
        { err := none
          store := tx.Commit s1
          issued := [Stmt.begin, Stmt.createEvent, Stmt.updatesExecution, Stmt.commit] }

/-- The caller identity `RetrieveAndLock` records. -/
def clusterNameOf (info : Option AgentInformation) : String :=
  match info with
  | some i => i.ClusterName
  | none => "Unknown"

/-- The closure `RetrieveAndLock` runs in its transaction; the first component
is the captured variable `exec`. -/
def RetrieveAndLock.fc (r : ExecutionRepo) (f : Faults) (now : Int) (locked : List Nat)
    (clusterName : String) (s : Store) (tx : Tx) : Execution × Tx × Option Error :=
  let result :=
    tx.RawFirst f.query now locked [WorkflowExecution_UNDEFINED, WorkflowExecution_QUEUED, "60"] s
  let exec := result.row.getD Execution.zero
  match result.Error with
  | some e => (exec, tx, some (Error.admin (r.errorTransformer.ToFlyteAdminError e)))
  | none =>
    if result.RowsAffected = 0 then
      (exec, tx, some (Error.errorf "no executions found"))
    else
      let exec := { exec with Phase := WorkflowExecution_QUEUED, Cluster := clusterName }
      match tx.Updates f.updates now exec with
      | (tx, exec, some err) => (exec, tx, some (Error.storage err))
      | (tx, exec, none) => (exec, tx, none)

/-- `ExecutionRepo.RetrieveAndLock`: the returned execution and error, and the
store after the call. -/
def RetrieveAndLock (r : ExecutionRepo) (f : Faults) (now : Int) (locked : List Nat)
    (info : Option AgentInformation) (s : Store) : (Execution × Option Error) × Store :=
  let clusterName := clusterNameOf info
  match Transaction f.commit s (RetrieveAndLock.fc r f now locked clusterName s) with
  | (_, some err, s1) => ((Execution.zero, some err), s1)
  | (exec, none, s1) => ((exec, none), s1)

/-- The example `RetrieveAndLock` updates by: the selected row with the new
phase and owner. -/
def claimed (clusterName : String) (row : Execution) : Execution :=
  { row with Phase := WorkflowExecution_QUEUED, Cluster := clusterName }

/-- The stored phases are phase names. -/
def PhasesNamed (s : Store) : Prop :=
  ∀ row ∈ s.executions, row.Phase ∈ phaseNames

instance (s : Store) : Decidable (PhasesNamed s) := by
  unfold PhasesNamed; infer_instance

/-! ## Concrete data used at the evaluated inputs -/

/-- A transformer that reports every storage error as `Internal`. -/
def internalTransformer : ErrorTransformer :=
  { ToFlyteAdminError := fun e => { code := Code.Internal, message := e.msg } }

/-- A repository using `internalTransformer`. -/
def repo : ExecutionRepo := { errorTransformer := internalTransformer }

/-- An unclaimed execution. -/
def rowUndefined : Execution :=
  { ID := 1, Project := "p", Domain := "d", Name := "n1", Phase := "UNDEFINED", Cluster := "",
    UpdatedAt := 0, Spec := [1], Closure := [] }

/-- An execution claimed by cluster `A` at time `0`. -/
def rowQueuedA : Execution :=
  { ID := 2, Project := "p", Domain := "d", Name := "n2", Phase := "QUEUED", Cluster := "A",
    UpdatedAt := 0, Spec := [2], Closure := [] }

/-- An execution past the claimed phase. -/
def rowRunning : Execution :=
  { ID := 3, Project := "p", Domain := "d", Name := "n3", Phase := "RUNNING", Cluster := "A",
    UpdatedAt := 0, Spec := [3], Closure := [] }

/-- An event reporting `RUNNING` for execution `2`. -/
def eventRunning : ExecutionEvent :=
  { ExecutionID := 2, Phase := "RUNNING", OccurredAt := 5, Metadata := [] }

/-- A storage fault. -/
def connReset : StorageError := { msg := "connection reset" }

/-! ## The claim statement -/

/-- The interval parser reads a written number of seconds. -/
theorem intervalSeconds_sixty : intervalSeconds "60 seconds" = some 60 := by decide

/-- The quoted placeholder names no duration. -/
theorem intervalSeconds_placeholder : intervalSeconds "? seconds" = none := by decide

/-- The caller identity: the given cluster name, `Unknown` for a nil `info`. -/
theorem clusterNameOf_cases :
    clusterNameOf none = "Unknown" ∧
    ∀ i : AgentInformation, clusterNameOf (some i) = i.ClusterName :=
  ⟨rfl, fun _ => rfl⟩

/-- The `WHERE` clause holds of a row exactly when its phase is the text `?`. -/
theorem claimWhere_iff (now : Int) (row : Execution) :
    claimWhere now row = true ↔ row.Phase = "?" := by
  unfold claimWhere
  by_cases h : row.Phase = "?" <;> simp [h]

/-- No phase name is the placeholder text. -/
theorem phaseNames_ne_placeholder {p : String} (h : p ∈ phaseNames) : p ≠ "?" := by
  intro hp
  subst hp
  revert h
  decide

/-- Over a table whose phases are phase names the claim statement yields no
row, whatever the time and the locks. -/
theorem claimQuery_eq_none (now : Int) (locked : List Nat) (s : Store) (hs : PhasesNamed s) :
    claimQuery now locked s.executions = none := by
  unfold claimQuery
  have hnil : (s.executions.filter
      fun row => claimWhere now row && !locked.contains row.ID) = [] := by
    rw [List.filter_eq_nil_iff]
    intro row hrow hp
    have hw : claimWhere now row = true := by
      simp at hp
      exact hp.1
    exact phaseNames_ne_placeholder (hs row hrow) ((claimWhere_iff now row).1 hw)
  rw [hnil]
  rfl

/-- When the claim statement reports no error it has scanned a row, so the
guard on `RowsAffected == 0` that follows the guard on `result.Error` is never
taken. -/
theorem RawFirst_rows_of_no_error (tx : Tx) (fault : Option StorageError) (now : Int)
    (locked : List Nat) (args : List String) (s : Store)
    (h : (tx.RawFirst fault now locked args s).Error = none) :
    (tx.RawFirst fault now locked args s).RowsAffected = 1 := by
  unfold Tx.RawFirst at h ⊢
  cases fault with
  | some e => simp at h
  | none =>
    cases hc : claimQuery now locked (tx.view s).executions with
    | none => simp [hc] at h
    | some row => simp

/-- A lookup by key that matches no row returns the translator's output for
`ErrRecordNotFound`. -/
theorem Get_no_row (r : ExecutionRepo) (f : Faults) (input : GetResourceInput) (s : Store)
    (hq : f.query = none) (hnone : s.executions.filter (whereKey input) = []) :
    Get r f input s =
      (Execution.zero,
        some (Error.admin (r.errorTransformer.ToFlyteAdminError ErrRecordNotFound))) := by
  simp [Get, dbWhereFirst, hq, hnone, firstByID]

/-! ## Outcomes of `RetrieveAndLock`, path by path -/

/-- Path 1: the database answers the claim statement with an error; the
translated error is returned. -/
theorem RetrieveAndLock_query_fault (r : ExecutionRepo) (f : Faults) (now : Int)
    (locked : List Nat) (info : Option AgentInformation) (s : Store) (e : StorageError)
    (hq : f.query = some e) :
    RetrieveAndLock r f now locked info s =
      ((Execution.zero, some (Error.admin (r.errorTransformer.ToFlyteAdminError e))), s) := by
  simp [RetrieveAndLock, Transaction, RetrieveAndLock.fc, Tx.RawFirst, hq]

/-- Path 2: the claim statement yields no row; the translated
`ErrRecordNotFound` is returned. -/
theorem RetrieveAndLock_no_candidate (r : ExecutionRepo) (f : Faults) (now : Int)
    (locked : List Nat) (info : Option AgentInformation) (s : Store)
    (hq : f.query = none) (hc : claimQuery now locked s.executions = none) :
    RetrieveAndLock r f now locked info s =
      ((Execution.zero,
        some (Error.admin (r.errorTransformer.ToFlyteAdminError ErrRecordNotFound))), s) := by
  simp [RetrieveAndLock, Transaction, RetrieveAndLock.fc, Tx.RawFirst, hq, Begin, Tx.view, hc]

/-- Path 3: a row is selected and the update raises a fault; the closure
returns it as it is. -/
theorem RetrieveAndLock_updates_fault (r : ExecutionRepo) (f : Faults) (now : Int)
    (locked : List Nat) (info : Option AgentInformation) (s : Store) (row : Execution)
    (e : StorageError)
    (hq : f.query = none) (hc : claimQuery now locked s.executions = some row)
    (hu : f.updates = some e) :
    RetrieveAndLock r f now locked info s = ((Execution.zero, some (Error.storage e)), s) := by
  simp [RetrieveAndLock, Transaction, RetrieveAndLock.fc, Tx.RawFirst, hq, Begin, Tx.view, hc,
    Tx.Updates, hu]

/-- Path 4: a row is selected and the commit raises a fault; `Transaction`
returns it as it is. -/
theorem RetrieveAndLock_commit_fault (r : ExecutionRepo) (f : Faults) (now : Int)
    (locked : List Nat) (info : Option AgentInformation) (s : Store) (row : Execution)
    (e : StorageError)
    (hq : f.query = none) (hc : claimQuery now locked s.executions = some row)
    (hu : f.updates = none) (hk : f.commit = some e) :
    RetrieveAndLock r f now locked info s = ((Execution.zero, some (Error.storage e)), s) := by
  simp [RetrieveAndLock, Transaction, RetrieveAndLock.fc, Tx.RawFirst, hq, Begin, Tx.view, hc,
    Tx.Updates, hu, hk]

/-- Path 5: a row is selected and no statement fails; the claim is committed. -/
theorem RetrieveAndLock_success (r : ExecutionRepo) (f : Faults) (now : Int)
    (locked : List Nat) (info : Option AgentInformation) (s : Store) (row : Execution)
    (hq : f.query = none) (hc : claimQuery now locked s.executions = some row)
    (hu : f.updates = none) (hk : f.commit = none) :
    RetrieveAndLock r f now locked info s =
      (({ claimed (clusterNameOf info) row with UpdatedAt := now }, none),
        { s with executions := Updates now (claimed (clusterNameOf info) row) s.executions }) := by
  simp [RetrieveAndLock, Transaction, RetrieveAndLock.fc, Tx.RawFirst, hq, Begin, Tx.view, hc,
    Tx.Updates, hu, hk, Tx.Commit, Write.apply, claimed]

/-- Every call takes one of the five paths above: it returns an error with the
zero value and the store as it was, or it commits a claim. -/
theorem RetrieveAndLock_paths (r : ExecutionRepo) (f : Faults) (now : Int)
    (locked : List Nat) (info : Option AgentInformation) (s : Store) :
    (∃ err, RetrieveAndLock r f now locked info s = ((Execution.zero, some err), s)) ∨
    (∃ row, f.query = none ∧ claimQuery now locked s.executions = some row ∧
      f.updates = none ∧ f.commit = none ∧
      RetrieveAndLock r f now locked info s =
        (({ claimed (clusterNameOf info) row with UpdatedAt := now }, none),
          { s with executions :=
              Updates now (claimed (clusterNameOf info) row) s.executions })) := by
  cases hq : f.query with
  | some e => exact Or.inl ⟨_, RetrieveAndLock_query_fault r f now locked info s e hq⟩
  | none =>
    cases hc : claimQuery now locked s.executions with
    | none => exact Or.inl ⟨_, RetrieveAndLock_no_candidate r f now locked info s hq hc⟩
    | some row =>
      cases hu : f.updates with
      | some e => exact Or.inl ⟨_, RetrieveAndLock_updates_fault r f now locked info s row e hq hc hu⟩
      | none =>
        cases hk : f.commit with
        | some e =>
          exact Or.inl ⟨_, RetrieveAndLock_commit_fault r f now locked info s row e hq hc hu hk⟩
        | none =>
          exact Or.inr ⟨row, rfl, rfl, rfl, rfl,
            RetrieveAndLock_success r f now locked info s row hq hc hu hk⟩

/-- Over a table whose phases are phase names every call ends at the guard on
`result.Error`: it returns the translator's output for the error of the claim
statement, the database's if it raised one and `ErrRecordNotFound` otherwise,
and leaves the store as it was. -/
theorem RetrieveAndLock_selects_nothing (r : ExecutionRepo) (f : Faults) (now : Int)
    (locked : List Nat) (info : Option AgentInformation) (s : Store) (hs : PhasesNamed s) :
    RetrieveAndLock r f now locked info s =
      ((Execution.zero,
        some (Error.admin
          (r.errorTransformer.ToFlyteAdminError (f.query.getD ErrRecordNotFound)))), s) := by
  cases hq : f.query with
  | some e => simpa using RetrieveAndLock_query_fault r f now locked info s e hq
  | none =>
    simpa using
      RetrieveAndLock_no_candidate r f now locked info s hq (claimQuery_eq_none now locked s hs)

/-! ## Claims about `RetrieveAndLock` -/

/-- C7: whenever `RetrieveAndLock` returns an error, whatever its cause (a fault
in the query, in the update or in the commit, or no eligible row), the store
after the call is the store before it and the execution returned with the
error is the zero value. -/
theorem RetrieveAndLock_error_leaves_store_unchanged (r : ExecutionRepo) (f : Faults)
    (now : Int) (locked : List Nat) (info : Option AgentInformation) (s : Store)
    (h : (RetrieveAndLock r f now locked info s).1.2 ≠ none) :
    (RetrieveAndLock r f now locked info s).2 = s ∧
    (RetrieveAndLock r f now locked info s).1.1 = Execution.zero := by
  rcases RetrieveAndLock_paths r f now locked info s with ⟨err, herr⟩ | ⟨row, _, _, _, _, hok⟩
  · rw [herr]; exact ⟨rfl, rfl⟩
  · rw [hok] at h; exact absurd rfl h

/-- C7, at a table with one unclaimed row: an error is returned, the row is
still unclaimed and the zero value comes back. -/
theorem RetrieveAndLock_error_leaves_store_unchanged_witness :
    (RetrieveAndLock repo { noFaults with updates := some connReset } 100 [] none
      { executions := [rowUndefined], events := [] }).1.2 ≠ none ∧
    (RetrieveAndLock repo { noFaults with updates := some connReset } 100 [] none
      { executions := [rowUndefined], events := [] }).2 =
        { executions := [rowUndefined], events := [] } ∧
    (RetrieveAndLock repo { noFaults with updates := some connReset } 100 [] none
      { executions := [rowUndefined], events := [] }).1.1 = Execution.zero :=
  ⟨by decide,
    RetrieveAndLock_error_leaves_store_unchanged repo { noFaults with updates := some connReset }
      100 [] none { executions := [rowUndefined], events := [] } (by decide)⟩

/-- C5, refuted as stated: on a table whose only row is running, so that no
row is eligible, `RetrieveAndLock` reports the outcome through its error
return. -/
theorem no_eligible_row_reported_as_error :
    (∀ row ∈ [rowRunning],
      ¬ (row.Phase = "UNDEFINED" ∨ (row.Phase = "QUEUED" ∧ row.UpdatedAt < 100 - 60))) ∧
    (RetrieveAndLock repo noFaults 100 [] none
      { executions := [rowRunning], events := [] }).1.2 ≠ none := by
  decide

/-- C5, amended: for every store state whose phases are phase names and which
holds no eligible execution (none in phase `UNDEFINED`, none in phase `QUEUED`
with `updated_at` more than 60 seconds before the call), `RetrieveAndLock`
reports the outcome through its error return: it returns a non-nil error with
the zero-valued execution and leaves the store unchanged. -/
theorem RetrieveAndLock_none_eligible (r : ExecutionRepo) (f : Faults) (now : Int)
    (locked : List Nat) (info : Option AgentInformation) (s : Store)
    (hs : PhasesNamed s)
    (_hnone : ∀ row ∈ s.executions,
      ¬ (row.Phase = "UNDEFINED" ∨ (row.Phase = "QUEUED" ∧ row.UpdatedAt < now - 60))) :
    (RetrieveAndLock r f now locked info s).1.2 ≠ none ∧
    (RetrieveAndLock r f now locked info s).1.1 = Execution.zero ∧
    (RetrieveAndLock r f now locked info s).2 = s := by
  rw [RetrieveAndLock_selects_nothing r f now locked info s hs]
  exact ⟨by simp, rfl, rfl⟩

/-- C5 amended, at a table holding a running execution and a claim of cluster
`A` made 60 seconds before the call. -/
theorem RetrieveAndLock_none_eligible_witness :
    PhasesNamed { executions := [rowRunning, rowQueuedA], events := [] } ∧
    (∀ row ∈ [rowRunning, rowQueuedA],
      ¬ (row.Phase = "UNDEFINED" ∨ (row.Phase = "QUEUED" ∧ row.UpdatedAt < 60 - 60))) ∧
    (RetrieveAndLock repo noFaults 60 [] none
      { executions := [rowRunning, rowQueuedA], events := [] }).1.2 ≠ none ∧
    (RetrieveAndLock repo noFaults 60 [] none
      { executions := [rowRunning, rowQueuedA], events := [] }).1.1 = Execution.zero ∧
    (RetrieveAndLock repo noFaults 60 [] none
      { executions := [rowRunning, rowQueuedA], events := [] }).2 =
        { executions := [rowRunning, rowQueuedA], events := [] } :=
  ⟨by decide, by decide,
    RetrieveAndLock_none_eligible repo noFaults 60 [] none
      { executions := [rowRunning, rowQueuedA], events := [] } (by decide) (by decide)⟩

/-- C6: for every store state whose phases are phase names and every assignment
of storage faults to the statements of `RetrieveAndLock`, the error returned
to the caller is the error translator's output, never a raw storage error.  A
fault of the selecting query is returned translated; the update that follows
the query is not reached, so a fault assigned to it is never returned. -/
theorem RetrieveAndLock_errors_are_translated (r : ExecutionRepo) (f : Faults) (now : Int)
    (locked : List Nat) (info : Option AgentInformation) (s : Store)
    (hs : PhasesNamed s) :
    (∀ e, f.query = some e →
      (RetrieveAndLock r f now locked info s).1.2 =
        some (Error.admin (r.errorTransformer.ToFlyteAdminError e))) ∧
    (∃ e, (RetrieveAndLock r f now locked info s).1.2 =
        some (Error.admin (r.errorTransformer.ToFlyteAdminError e))) ∧
    (∀ e, (RetrieveAndLock r f now locked info s).1.2 ≠ some (Error.storage e)) := by
  rw [RetrieveAndLock_selects_nothing r f now locked info s hs]
  refine ⟨?_, ⟨_, rfl⟩, ?_⟩
  · intro e he
    simp [he]
  · intro e
    simp

/-- C6, at a table with a running and an unclaimed execution when both the
query and the update are assigned the fault `connReset`: the caller receives
the translator's output for it. -/
theorem RetrieveAndLock_errors_are_translated_witness :
    PhasesNamed { executions := [rowRunning, rowUndefined], events := [] } ∧
    (RetrieveAndLock repo
      { create := none, query := some connReset, updates := some connReset, commit := none }
      100 [] (some { ClusterName := "B" })
      { executions := [rowRunning, rowUndefined], events := [] }).1.2 =
        some (Error.admin (repo.errorTransformer.ToFlyteAdminError connReset)) :=
  ⟨by decide,
    (RetrieveAndLock_errors_are_translated repo
      { create := none, query := some connReset, updates := some connReset, commit := none }
      100 [] (some { ClusterName := "B" })
      { executions := [rowRunning, rowUndefined], events := [] } (by decide)).1 connReset rfl⟩

/-- C8, evaluated where it fails: the store holds the one execution `p/d/n1` in
phase `UNDEFINED` and cluster `A` calls `RetrieveAndLock` at time 10.  With no
fault the call returns the zero-valued execution and the translator's output
for `ErrRecordNotFound`, and the row is still `UNDEFINED` and unowned; whatever
the database answers, the call returns an error and leaves the store as it
was.  The first call of the scenario does not succeed. -/
theorem RetrieveAndLock_first_claim_fails :
    RetrieveAndLock repo noFaults 10 [] (some { ClusterName := "A" })
        { executions := [rowUndefined], events := [] } =
      ((Execution.zero,
        some (Error.admin (repo.errorTransformer.ToFlyteAdminError ErrRecordNotFound))),
        { executions := [rowUndefined], events := [] }) ∧
    ∀ f : Faults,
      (RetrieveAndLock repo f 10 [] (some { ClusterName := "A" })
        { executions := [rowUndefined], events := [] }).1.2 ≠ none ∧
      (RetrieveAndLock repo f 10 [] (some { ClusterName := "A" })
        { executions := [rowUndefined], events := [] }).2 =
          { executions := [rowUndefined], events := [] } := by
  refine ⟨by decide, ?_⟩
  intro f
  rw [RetrieveAndLock_selects_nothing repo f 10 [] _ _ (by decide)]
  exact ⟨by simp, rfl⟩

/-- C9, evaluated where it fails: the table holds a running execution and a
claim of cluster `A` that is 100 seconds old, nothing is locked, and worker `B`
calls `RetrieveAndLock`.  With no fault the call returns the zero-valued
execution and the translator's output for `ErrRecordNotFound`, and the stale
row still belongs to `A` with its old timestamp; whatever the database
answers, the call returns an error and leaves the store as it was.  The stale
claim is not reclaimed. -/
theorem RetrieveAndLock_stale_claim_not_reclaimed :
    rowQueuedA.Phase = "QUEUED" ∧ rowQueuedA.UpdatedAt < 100 - 60 ∧
    RetrieveAndLock repo noFaults 100 [] (some { ClusterName := "B" })
        { executions := [rowRunning, rowQueuedA], events := [] } =
      ((Execution.zero,
        some (Error.admin (repo.errorTransformer.ToFlyteAdminError ErrRecordNotFound))),
        { executions := [rowRunning, rowQueuedA], events := [] }) ∧
    ∀ f : Faults,
      (RetrieveAndLock repo f 100 [] (some { ClusterName := "B" })
        { executions := [rowRunning, rowQueuedA], events := [] }).1.2 ≠ none ∧
      (RetrieveAndLock repo f 100 [] (some { ClusterName := "B" })
        { executions := [rowRunning, rowQueuedA], events := [] }).2 =
          { executions := [rowRunning, rowQueuedA], events := [] } := by
  refine ⟨by decide, by decide, by decide, ?_⟩
  intro f
  rw [RetrieveAndLock_selects_nothing repo f 100 [] _ _ (by decide)]
  exact ⟨by simp, rfl⟩

/-! ## Claims about `Update` -/

/-- When no statement fails, `Update` appends the event and applies the
execution's fields. -/
theorem Update_success (r : ExecutionRepo) (f : Faults) (now : Int) (event : ExecutionEvent)
    (execution : Execution) (s : Store)
    (hc : f.create = none) (hu : f.updates = none) (hk : f.commit = none) :
    (Update r f now event execution s).err = none ∧
    (Update r f now event execution s).store =
      { executions := Updates now execution s.executions, events := s.events ++ [event] } := by
  simp [Update, Begin, Tx.Create, dbUpdates, hc, hu, hk, Tx.Commit, Tx.view, Write.apply]

/-- When the execution update fails, `Update` returns the translated error and
the store is unchanged. -/
theorem Update_updates_fault (r : ExecutionRepo) (f : Faults) (now : Int)
    (event : ExecutionEvent) (execution : Execution) (s : Store) (e : StorageError)
    (hc : f.create = none) (hu : f.updates = some e) :
    (Update r f now event execution s).err =
      some (Error.admin (r.errorTransformer.ToFlyteAdminError e)) ∧
    (Update r f now event execution s).store = s := by
  simp [Update, Begin, Tx.Create, dbUpdates, hc, hu]

/-- When only the commit fails, the event is lost and the execution update,
issued outside the transaction, stays. -/
theorem Update_commit_fault (r : ExecutionRepo) (f : Faults) (now : Int)
    (event : ExecutionEvent) (execution : Execution) (s : Store) (e : StorageError)
    (hc : f.create = none) (hu : f.updates = none) (hk : f.commit = some e) :
    (Update r f now event execution s).err =
      some (Error.admin (r.errorTransformer.ToFlyteAdminError e)) ∧
    (Update r f now event execution s).store =
      { executions := Updates now execution s.executions, events := s.events } := by
  simp [Update, Begin, Tx.Create, dbUpdates, hc, hu, hk, Write.apply]

/-- C4, evaluated where it fails: execution `2` is stored as `QUEUED`, `Update`
is called with an event and the execution in phase `RUNNING`, and the commit
raises `connReset`.  `Update` returns an error, the event log is still empty,
and the stored row has phase `RUNNING`: the execution row is updated while the
event is absent. -/
theorem Update_commit_fault_keeps_execution_update :
    (Update repo { noFaults with commit := some connReset } 7 eventRunning
      { rowQueuedA with Phase := "RUNNING" }
      { executions := [rowQueuedA], events := [] }).err =
        some (Error.admin (repo.errorTransformer.ToFlyteAdminError connReset)) ∧
    (Update repo { noFaults with commit := some connReset } 7 eventRunning
      { rowQueuedA with Phase := "RUNNING" }
      { executions := [rowQueuedA], events := [] }).store =
        { executions := [{ rowQueuedA with Phase := "RUNNING", UpdatedAt := 7 }],
          events := [] } := by
  decide

/-- C10: if the event-append statement of `Update` fails, `Update` returns the
translated error, the statements issued are begin, the event insert and the
rollback (the execution update is not among them), the store after the call is
the store before it, and so every `Get` gives the same result before and
after. -/
theorem Update_event_append_failure (r : ExecutionRepo) (f : Faults) (now : Int)
    (event : ExecutionEvent) (execution : Execution) (s : Store) (e : StorageError)
    (hc : f.create = some e) :
    (Update r f now event execution s).err =
      some (Error.admin (r.errorTransformer.ToFlyteAdminError e)) ∧
    (Update r f now event execution s).issued =
      [Stmt.begin, Stmt.createEvent, Stmt.rollback] ∧
    Stmt.updatesExecution ∉ (Update r f now event execution s).issued ∧
    (Update r f now event execution s).store = s ∧
    ∀ (g : Faults) (input : GetResourceInput),
      Get r g input (Update r f now event execution s).store = Get r g input s := by
  have h : Update r f now event execution s =
      { err := some (Error.admin (r.errorTransformer.ToFlyteAdminError e))
        store := s
        issued := [Stmt.begin, Stmt.createEvent, Stmt.rollback] } := by
    simp [Update, Begin, Tx.Create, hc]
  rw [h]
  exact ⟨rfl, rfl, by simp, rfl, fun _ _ => rfl⟩

/-- C10, for execution `2` stored as `QUEUED` when the insert of a `RUNNING`
event fails: the row read back by `Get` is still the `QUEUED` row. -/
theorem Update_event_append_failure_witness :
    ({ noFaults with create := some connReset } : Faults).create = some connReset ∧
    (Update repo { noFaults with create := some connReset } 7 eventRunning
      { rowQueuedA with Phase := "RUNNING" }
      { executions := [rowQueuedA], events := [] }).store =
        { executions := [rowQueuedA], events := [] } ∧
    Get repo noFaults { Project := "p", Domain := "d", Name := "n2" }
      (Update repo { noFaults with create := some connReset } 7 eventRunning
        { rowQueuedA with Phase := "RUNNING" }
        { executions := [rowQueuedA], events := [] }).store = (rowQueuedA, none) :=
  ⟨rfl,
    (Update_event_append_failure repo { noFaults with create := some connReset } 7 eventRunning
      { rowQueuedA with Phase := "RUNNING" }
      { executions := [rowQueuedA], events := [] } connReset rfl).2.2.2.1,
    by decide⟩

end gormimpl
